import Mathlib

/-!
# Shallow embedding of the WebGL image viewer engine

This file embeds the core state and operations of
`src/packages/webgl-viewer/src/WebGLImageViewerEngine.ts` in Lean 4 and
proves properties of them.  All numeric quantities (scales, translations,
pixel sizes) are modelled over `ℚ`; JavaScript numbers are IEEE doubles, but
none of the verified properties depends on rounding, and the spec phrases the
relevant law "within floating-point tolerance", which over `ℚ` is exact.

Asynchronous parts of the engine (texture creation, the animation-frame
callback of `swapBuffers`, `loadImage`'s awaited decode) are modelled as
explicit step functions on the engine state; the decode outcome is passed in
as an `Option` value.  Wall-clock fields (`animationStartTime`, timers) and
GPU objects are not modelled; textures are identified by `ℕ` ids and the LOD
cache `lodTextures : Map<number, TextureInfo>` is modelled by its key set
(a duplicate-free `List ℤ`), which is what the cache-policy claims are about.

The LOD table `LOD_LEVELS` lives in `constants.ts`, which is not part of the
sources; every definition that needs it takes the list of
`maxViewportScale` (ψ) values as an explicit parameter, so no concrete table
is assumed.
-/

namespace AfilmoryViewer

/-- The four-level memory pressure signal (`MemoryInfo.pressure`). -/
inductive MemoryPressure where
  | low
  | medium
  | high
  | critical
deriving DecidableEq

/-- The configuration options of `WebGLImageViewerProps` that the embedded
operations read.  `minScale`, `maxScale`, `initialScale` are relative to the
fit-to-screen scale. -/
structure ViewerConfig where
  minScale : ℚ
  maxScale : ℚ
  initialScale : ℚ
  wheelStep : ℚ
  smooth : Bool
  limitToBounds : Bool
  centerOnInit : Bool
  panningDisabled : Bool
  wheelDisabled : Bool
  doubleClickDisabled : Bool
  /-- `true` models `doubleClick.mode === 'toggle'`, `false` models `'zoom'`. -/
  doubleClickModeToggle : Bool
  doubleClickStep : ℚ
  doubleClickAnimationTime : ℚ
deriving DecidableEq

/-- The mutable fields of `WebGLImageViewerEngine` that the verified
operations read or write. -/
structure EngineState where
  config : ViewerConfig
  scale : ℚ
  translateX : ℚ
  translateY : ℚ
  targetScale : ℚ
  targetTranslateX : ℚ
  targetTranslateY : ℚ
  startScale : ℚ
  startTranslateX : ℚ
  startTranslateY : ℚ
  isAnimating : Bool
  animationDuration : ℚ
  imageWidth : ℚ
  imageHeight : ℚ
  canvasWidth : ℚ
  canvasHeight : ℚ
  imageLoaded : Bool
  originalImageSrc : String
  isDragging : Bool
  lastMouseX : ℚ
  lastMouseY : ℚ
  isOriginalSize : Bool
  lastTouchTime : ℚ
  lastTouchX : ℚ
  lastTouchY : ℚ
  currentLOD : ℤ
  /-- Key set of the `lodTextures` map. -/
  lodTextures : List ℤ
  frontTexture : Option ℕ
  backTexture : Option ℕ
  isBackBufferReady : Bool
  pressure : MemoryPressure
deriving DecidableEq

/-- `getFitToScreenScale`: `min(canvasWidth / imageWidth, canvasHeight / imageHeight)`. -/
def fitScale (st : EngineState) : ℚ :=
  min (st.canvasWidth / st.imageWidth) (st.canvasHeight / st.imageHeight)

/-- The absolute lower scale bound `fitToScreenScale * config.minScale`
(local constant `absoluteMinScale` in `zoomAt` / `constrainScaleAndPosition`). -/
def absoluteMinScale (st : EngineState) : ℚ :=
  fitScale st * st.config.minScale

/-- The absolute upper scale bound
`Math.max(fitToScreenScale * config.maxScale, originalSizeScale)` with
`originalSizeScale = 1` (local constant `effectiveMaxScale`). -/
def effectiveMaxScale (st : EngineState) : ℚ :=
  max (fitScale st * st.config.maxScale) 1

/-- `scale / fitToScreenScale`, the relative scale reported by
`notifyZoomChange` and used by LOD selection. -/
def relativeScale (st : EngineState) : ℚ :=
  st.scale / fitScale st

/-- `constrainImagePosition`: when `limitToBounds`, center the image while at
or below fit scale, otherwise clamp the translation so the image edges stay
within the viewport. -/
def constrainImagePosition (st : EngineState) : EngineState :=
  if st.config.limitToBounds = false then st
  else if st.scale ≤ fitScale st then
    { st with translateX := 0, translateY := 0 }
  else
    let scaledWidth := st.imageWidth * st.scale
    let scaledHeight := st.imageHeight * st.scale
    let maxTranslateX := max 0 ((scaledWidth - st.canvasWidth) / 2)
    let maxTranslateY := max 0 ((scaledHeight - st.canvasHeight) / 2)
    { st with
      translateX := max (-maxTranslateX) (min maxTranslateX st.translateX),
      translateY := max (-maxTranslateY) (min maxTranslateY st.translateY) }

/-- `constrainScaleAndPosition`: clamp the scale into
`[absoluteMinScale, effectiveMaxScale]`, then constrain the position. -/
def constrainScaleAndPosition (st : EngineState) : EngineState :=
  let st1 :=
    if st.scale < absoluteMinScale st then { st with scale := absoluteMinScale st }
    else if st.scale > effectiveMaxScale st then { st with scale := effectiveMaxScale st }
    else st
  constrainImagePosition st1

/-- JavaScript `x || d` applied to the optional `animationTime` argument of
`startAnimation`: an absent argument or the (falsy) value `0` both select the
default `d`. -/
def jsOrDefault (x : Option ℚ) (d : ℚ) : ℚ :=
  match x with
  | none => d
  | some t => if t = 0 then d else t

/-- `startAnimation(targetScale, targetTranslateX, targetTranslateY, animationTime?)`:
arms the animation record; the target position (but not the target scale) is
passed through `constrainImagePosition` evaluated at the target transform.
`animationStartTime` (wall clock) is not modelled. -/
def startAnimation (st : EngineState) (tS tX tY : ℚ) (animTime : Option ℚ) :
    EngineState :=
  let probe := constrainImagePosition
    { st with scale := tS, translateX := tX, translateY := tY }
  { st with
    isAnimating := true,
    animationDuration := jsOrDefault animTime (if st.config.smooth then 300 else 0),
    startScale := st.scale,
    targetScale := tS,
    startTranslateX := st.translateX,
    startTranslateY := st.translateY,
    targetTranslateX := probe.translateX,
    targetTranslateY := probe.translateY }

/-- The unconstrained transform update inside `zoomAt`: anchor the image-space
point under viewport point `(x, y)`, multiply the scale by `factor`, and move
the translation so that the anchor stays put. -/
def zoomAtRaw (st : EngineState) (x y factor : ℚ) : EngineState :=
  let newScale := st.scale * factor
  let zoomX := (x - st.canvasWidth / 2 - st.translateX) / st.scale
  let zoomY := (y - st.canvasHeight / 2 - st.translateY) / st.scale
  { st with
    scale := newScale,
    translateX := x - st.canvasWidth / 2 - zoomX * newScale,
    translateY := y - st.canvasHeight / 2 - zoomY * newScale }

/-- `zoomAt(x, y, scaleFactor, animated)`: rejected outright when the new
scale leaves `[absoluteMinScale, effectiveMaxScale]`; otherwise either starts
an animation toward the raw target (when `animated ∧ smooth`) or applies the
raw update followed by `constrainImagePosition`.  The trailing
`updateLODIfNeeded` call only touches the texture pipeline, which is modelled
by the separate step functions below. -/
def zoomAt (st : EngineState) (x y factor : ℚ) (animated : Bool) : EngineState :=
  let newScale := st.scale * factor
  if newScale < absoluteMinScale st ∨ effectiveMaxScale st < newScale then st
  else if animated ∧ st.config.smooth then
    let raw := zoomAtRaw st x y factor
    startAnimation st raw.scale raw.translateX raw.translateY none
  else
    constrainImagePosition (zoomAtRaw st x y factor)

/-- The image-space point displayed under viewport point `(x, y)`:
`((x − Vw/2 − tx)/s, (y − Vh/2 − ty)/s)`, the anchor computation of `zoomAt`. -/
def imagePointUnder (st : EngineState) (x y : ℚ) : ℚ × ℚ :=
  ((x - st.canvasWidth / 2 - st.translateX) / st.scale,
   (y - st.canvasHeight / 2 - st.translateY) / st.scale)

/-- `handleWheel`: ignored while animating or when the wheel is disabled;
otherwise zooms about the cursor with factor `1 ∓ wheel.step`, unanimated. -/
def handleWheel (st : EngineState) (mouseX mouseY deltaY : ℚ) : EngineState :=
  if st.isAnimating ∨ st.config.wheelDisabled then st
  else
    let factor := if deltaY > 0 then 1 - st.config.wheelStep else 1 + st.config.wheelStep
    zoomAt st mouseX mouseY factor false

/-- `handleMouseDown`: returns immediately while animating or when panning is
disabled; otherwise starts a drag.  (The `isAnimating := false` write is kept
from the source even though the guard makes it dead when an animation is in
flight.) -/
def handleMouseDown (st : EngineState) (clientX clientY : ℚ) : EngineState :=
  if st.isAnimating ∨ st.config.panningDisabled then st
  else
    { st with
      isAnimating := false,
      isDragging := true,
      lastMouseX := clientX,
      lastMouseY := clientY }

/-- `performDoubleClickAction(x, y)`: cancels any animation, then in toggle
mode animates between fit scale and the original 1:1 size (both targets
clamped into `[absoluteMinScale, effectiveMaxScale]`) anchored at `(x, y)`,
passing `config.doubleClick.animationTime`; in zoom mode zooms by
`config.doubleClick.step` about `(x, y)`. -/
def performDoubleClickAction (st : EngineState) (x y : ℚ) : EngineState :=
  let st1 := { st with isAnimating := false }
  if st1.config.doubleClickModeToggle then
    if st1.isOriginalSize then
      let targetScale := max (absoluteMinScale st1)
        (min (effectiveMaxScale st1) (fitScale st1))
      let zoomX := (x - st1.canvasWidth / 2 - st1.translateX) / st1.scale
      let zoomY := (y - st1.canvasHeight / 2 - st1.translateY) / st1.scale
      let tX := x - st1.canvasWidth / 2 - zoomX * targetScale
      let tY := y - st1.canvasHeight / 2 - zoomY * targetScale
      { startAnimation st1 targetScale tX tY (some st1.config.doubleClickAnimationTime)
        with isOriginalSize := false }
    else
      let targetScale := max (absoluteMinScale st1) (min (effectiveMaxScale st1) 1)
      let zoomX := (x - st1.canvasWidth / 2 - st1.translateX) / st1.scale
      let zoomY := (y - st1.canvasHeight / 2 - st1.translateY) / st1.scale
      let tX := x - st1.canvasWidth / 2 - zoomX * targetScale
      let tY := y - st1.canvasHeight / 2 - zoomY * targetScale
      { startAnimation st1 targetScale tX tY (some st1.config.doubleClickAnimationTime)
        with isOriginalSize := true }
  else
    zoomAt st1 x y st1.config.doubleClickStep false

/-- `handleTouchStart` restricted to a single-finger touch at client
coordinates `(clientX, clientY)` arriving at time `now` (`Date.now()`); the
canvas bounding rectangle is taken at the origin.  Returns immediately while
animating; detects a double tap when the previous touch was less than 300 ms
ago and within 50 units in each axis. -/
def handleTouchStartSingle (st : EngineState) (clientX clientY now : ℚ) :
    EngineState :=
  if st.isAnimating then st
  else if st.config.panningDisabled = false then
    if st.config.doubleClickDisabled = false ∧ now - st.lastTouchTime < 300 ∧
        |clientX - st.lastTouchX| < 50 ∧ |clientY - st.lastTouchY| < 50 then
      { performDoubleClickAction st clientX clientY with lastTouchTime := 0 }
    else
      { st with
        isDragging := true,
        lastMouseX := clientX,
        lastMouseY := clientY,
        lastTouchTime := now,
        lastTouchX := clientX,
        lastTouchY := clientY }
  else st

/-- `getMemoryPressureModifier`: the LOD-selection modifier m. -/
def pressureModifier : MemoryPressure → ℚ
  | .critical => 1/2
  | .high => 7/10
  | .medium => 9/10
  | .low => 1

/-- The `for (const [i, lodLevel] of LOD_LEVELS.entries())` loop of
`selectOptimalLOD`: index of the first ψ in the table with `r ≤ ψ · m`,
`none` when no entry qualifies. -/
def firstQualifying (r m : ℚ) : List ℚ → Option ℕ
  | [] => none
  | ψ :: rest =>
    if r ≤ ψ * m then some 0 else (firstQualifying r m rest).map (· + 1)

/-- The loaded-image branch of `selectOptimalLOD` on relative scale `r` and
pressure modifier `m`: the first qualifying index, or `LOD_LEVELS.length - 1`
when none qualifies. -/
def selectLODIndex (tbl : List ℚ) (r m : ℚ) : ℤ :=
  match firstQualifying r m tbl with
  | some i => (i : ℤ)
  | none => (tbl.length : ℤ) - 1

/-- `selectOptimalLOD`, parameterised by the table of `maxViewportScale`
values: `3` (default medium quality) before the image is loaded, otherwise
the first level whose pressure-adjusted max relative scale admits
`scale / fitToScreenScale`. -/
def selectOptimalLOD (tbl : List ℚ) (st : EngineState) : ℤ :=
  if st.imageLoaded = false then 3
  else selectLODIndex tbl (st.scale / fitScale st) (pressureModifier st.pressure)

/-- `this.lodTextures.set(lodLevel, …)` on the key set: a map insert leaves
an already-present key in place and otherwise appends it. -/
def insertKey (keys : List ℤ) (k : ℤ) : List ℤ :=
  if k ∈ keys then keys else keys ++ [k]

/-- The cache effect of `preloadAdjacentLODs(currentLOD)` when every
requested texture creation succeeds: stage `currentLOD + 1` (when below the
top level and absent) and `currentLOD − 1` (when above 0 and absent). -/
def preloadAdjacentKeys (levelCount : ℕ) (keys : List ℤ) (cur : ℤ) : List ℤ :=
  let k1 :=
    if cur < (levelCount : ℤ) - 1 ∧ (cur + 1) ∉ keys then insertKey keys (cur + 1)
    else keys
  if cur > 0 ∧ (cur - 1) ∉ keys then insertKey k1 (cur - 1) else k1

/-- The cache-key effect of one `updateLODIfNeeded` round in which every
texture creation succeeds: nothing when the optimal LOD is current, otherwise
the optimal LOD's texture is created (inserted) and the adjacent LODs are
preloaded.  No key is ever removed. -/
def updateLODCache (tbl : List ℚ) (st : EngineState) : List ℤ :=
  let opt := selectOptimalLOD tbl st
  if opt = st.currentLOD then st.lodTextures
  else preloadAdjacentKeys tbl.length (insertKey st.lodTextures opt) opt

/-- First half of `swapBuffers(newTexture, newLOD)`: stage the new texture in
the back slot and arm the swap. -/
def swapBuffersArm (st : EngineState) (tex : ℕ) : EngineState :=
  { st with backTexture := some tex, isBackBufferReady := true }

/-- The `requestAnimationFrame` callback of `swapBuffers`: on the next frame
boundary, when armed, promote the back texture to the front and record the
new LOD.  The source leaves `backTexture` itself untouched. -/
def swapBuffersCommit (st : EngineState) (newLOD : ℤ) : EngineState :=
  if st.isBackBufferReady then
    { st with
      frontTexture := st.backTexture,
      currentLOD := newLOD,
      isBackBufferReady := false }
  else st

/-- The texture `renderFrame` samples from: drawing is skipped without a
front texture or before the image is loaded, and only `frontTexture` is ever
bound. -/
def renderedTexture (st : EngineState) : Option ℕ :=
  if st.frontTexture = none ∨ st.imageLoaded = false then none
  else st.frontTexture

/-- `emergencyCleanup`: delete every cached texture whose level is outside
`{currentLOD − 1, currentLOD, currentLOD + 1}`. -/
def emergencyCleanup (st : EngineState) : EngineState :=
  { st with
    lodTextures := st.lodTextures.filter fun k =>
      k == st.currentLOD - 1 || k == st.currentLOD || k == st.currentLOD + 1 }

/-- `cleanupOldTextures` at an instant when every texture other than the
current one has aged out: delete every cached texture except `currentLOD`'s. -/
def cleanupOldTexturesAged (st : EngineState) : EngineState :=
  { st with lodTextures := st.lodTextures.filter fun k => k == st.currentLOD }

/-- `loadImage(url)` with the decode outcome passed in: `decoded = none`
models a rejected decoder promise (`loadImageAsync` rejects), `some (w, h)`
a successful decode of a `w × h` image.  `this.originalImageSrc = url` runs
before the await, so it survives a failure.  On success the transform is
initialised from the new fit scale, the bootstrap texture (id `tex`) for the
LOD selected by `createInitialTexture` is installed as the front texture, and
the loaded flag is set.  The returned `Bool` is `false` exactly when
`loadImage` rethrows the decode error to its caller. -/
def loadImage (tbl : List ℚ) (tex : ℕ) (st : EngineState) (url : String)
    (decoded : Option (ℚ × ℚ)) : EngineState × Bool :=
  let st0 := { st with originalImageSrc := url }
  match decoded with
  | none => (st0, false)
  | some (w, h) =>
    let st1 := { st0 with imageWidth := w, imageHeight := h }
    let st2 :=
      if st1.config.centerOnInit then
        { st1 with
          scale := fitScale st1 * st1.config.initialScale,
          translateX := 0, translateY := 0, isOriginalSize := false }
      else { st1 with scale := fitScale st1 * st1.config.initialScale }
    let opt := selectOptimalLOD tbl st2
    ({ st2 with
        currentLOD := opt,
        frontTexture := some tex,
        lodTextures := insertKey st2.lodTextures opt,
        imageLoaded := true },
      true)

/-! ## Concrete demonstration states

`demoState` realises scenario 1 of the spec: an 800×600 viewport, an
8000×6000 image, `initialScale = 1`, `minScale = 0.1`, `maxScale = 10`, after
load (fit scale `F = 1/10`, `s = 1/10`, `tx = ty = 0`).  The other concrete
states below vary single fields of it. -/

def demoConfig : ViewerConfig :=
  { minScale := 1/10, maxScale := 10, initialScale := 1,
    wheelStep := 1/10, smooth := true, limitToBounds := true,
    centerOnInit := true, panningDisabled := false, wheelDisabled := false,
    doubleClickDisabled := false, doubleClickModeToggle := true,
    doubleClickStep := 2, doubleClickAnimationTime := 200 }

def demoState : EngineState :=
  { config := demoConfig,
    scale := 1/10, translateX := 0, translateY := 0,
    targetScale := 1, targetTranslateX := 0, targetTranslateY := 0,
    startScale := 1, startTranslateX := 0, startTranslateY := 0,
    isAnimating := false, animationDuration := 300,
    imageWidth := 8000, imageHeight := 6000,
    canvasWidth := 800, canvasHeight := 600,
    imageLoaded := true, originalImageSrc := "original.jpg",
    isDragging := false, lastMouseX := 0, lastMouseY := 0,
    isOriginalSize := false, lastTouchTime := 0, lastTouchX := 0, lastTouchY := 0,
    currentLOD := 2, lodTextures := [2], frontTexture := some 1, backTexture := none,
    isBackBufferReady := false, pressure := .low }

/-- A plausible four-level ψ table (monotone, as the spec requires of
`LOD_LEVELS`), used for the concrete LOD computations. -/
def tbl4 : List ℚ := [1/2, 1, 2, 4]

/-! ## Helper lemmas -/

lemma constrainImagePosition_scale (st : EngineState) :
    (constrainImagePosition st).scale = st.scale := by
  unfold constrainImagePosition
  split
  · rfl
  · split <;> rfl

lemma startAnimation_scale (st : EngineState) (tS tX tY : ℚ) (animTime : Option ℚ) :
    (startAnimation st tS tX tY animTime).scale = st.scale := rfl

lemma zoomAtRaw_scale (st : EngineState) (x y k : ℚ) :
    (zoomAtRaw st x y k).scale = st.scale * k := rfl

lemma mem_insertKey (keys : List ℤ) (k a : ℤ) (h : a ∈ keys) :
    a ∈ insertKey keys k := by
  unfold insertKey
  split
  · exact h
  · exact List.mem_append_left _ h

lemma mem_preloadAdjacentKeys (levelCount : ℕ) (keys : List ℤ) (cur a : ℤ)
    (h : a ∈ keys) : a ∈ preloadAdjacentKeys levelCount keys cur := by
  unfold preloadAdjacentKeys
  split
  · split
    · exact mem_insertKey _ _ _ (mem_insertKey _ _ _ h)
    · exact mem_insertKey _ _ _ h
  · split
    · exact mem_insertKey _ _ _ h
    · exact h

lemma mem_emergencyCleanup (st : EngineState) (a : ℤ) :
    a ∈ (emergencyCleanup st).lodTextures ↔
      a ∈ st.lodTextures ∧
        (a = st.currentLOD - 1 ∨ a = st.currentLOD ∨ a = st.currentLOD + 1) := by
  simp [emergencyCleanup, List.mem_filter, or_assoc]

/-! ## Claim theorems -/

/-- C7: a zoom request whose resulting scale `s·k` falls outside
`[F·minRel, max(F·maxRel, 1)]` is a complete no-op: `zoomAt` returns the
state unchanged (no partial scaling, no translation drift), and a wheel event
whose factor would take the scale out of range likewise leaves the state
unchanged. -/
theorem C7_out_of_range_zoom_noop (st : EngineState) (x y k dy : ℚ)
    (animated : Bool)
    (h : st.scale * k < absoluteMinScale st ∨
      effectiveMaxScale st < st.scale * k) :
    zoomAt st x y k animated = st ∧
    (st.isAnimating = false → st.config.wheelDisabled = false →
      (st.scale * (if dy > 0 then 1 - st.config.wheelStep else 1 + st.config.wheelStep)
          < absoluteMinScale st ∨
        effectiveMaxScale st
          < st.scale * (if dy > 0 then 1 - st.config.wheelStep else 1 + st.config.wheelStep)) →
      handleWheel st x y dy = st) := by
  constructor
  · simp only [zoomAt]
    rw [if_pos h]
  · intro h1 h2 h3
    simp only [handleWheel]
    rw [if_neg (by simp [h1, h2])]
    simp only [zoomAt]
    rw [if_pos h3]

/-- C7 witness: in scenario 1 (`s = 1/10`, bounds `[1/100, 1]`) a wheel-style
zoom by factor 100 would give scale 10, outside the bounds, and both `zoomAt`
and `handleWheel` (scroll up, factor `1 + step = 11/10` from scale 10 … here
factor 100 directly) leave the state untouched. -/
theorem C7_out_of_range_zoom_noop_witness :
    zoomAt demoState 400 300 100 false = demoState :=
  (C7_out_of_range_zoom_noop demoState 400 300 100 1 false
    (Or.inr (by norm_num [demoState, demoConfig, effectiveMaxScale, fitScale]))).1

/-- C3: zoom-about-point fixity.  For an unanimated `zoomAt(x, y, k)` whose
new scale passes the range check and whose result is not altered by
`constrainImagePosition`, the image-space point displayed under viewport
point `(x, y)` is unchanged (exactly, over `ℚ`). -/
theorem C3_zoom_about_point_fixity (st : EngineState) (x y k : ℚ)
    (hs : st.scale ≠ 0) (hk : k ≠ 0)
    (hlo : ¬ st.scale * k < absoluteMinScale st)
    (hhi : ¬ effectiveMaxScale st < st.scale * k)
    (hnc : constrainImagePosition (zoomAtRaw st x y k) = zoomAtRaw st x y k) :
    imagePointUnder (zoomAt st x y k false) x y = imagePointUnder st x y := by
  have hreject : ¬ (st.scale * k < absoluteMinScale st ∨
      effectiveMaxScale st < st.scale * k) := by
    rintro (h | h)
    · exact hlo h
    · exact hhi h
  simp only [zoomAt]
  rw [if_neg hreject, if_neg (by simp)]
  rw [hnc]
  simp only [imagePointUnder, zoomAtRaw, Prod.mk.injEq]
  constructor
  · field_simp
    ring
  · field_simp
    ring

/-- C3 witness: scenario 2 of the spec.  From `s = 1/10`, `tx = ty = 0`,
800×600 viewport and 8000×6000 image, `zoomAt(400, 300, 10)` (unanimated)
keeps the image point under the cursor fixed and yields `s = 1`, `tx = 0`,
`ty = 0`, `relativeScale = 10`. -/
theorem C3_zoom_about_point_fixity_witness :
    imagePointUnder (zoomAt demoState 400 300 10 false) 400 300
        = imagePointUnder demoState 400 300 ∧
    (zoomAt demoState 400 300 10 false).scale = 1 ∧
    (zoomAt demoState 400 300 10 false).translateX = 0 ∧
    (zoomAt demoState 400 300 10 false).translateY = 0 ∧
    relativeScale (zoomAt demoState 400 300 10 false) = 10 :=
  ⟨C3_zoom_about_point_fixity demoState 400 300 10
      (by norm_num [demoState])
      (by norm_num)
      (by norm_num [demoState, demoConfig, absoluteMinScale, fitScale])
      (by norm_num [demoState, demoConfig, effectiveMaxScale, fitScale])
      (by simp only [zoomAtRaw, demoState, demoConfig, constrainImagePosition,
            fitScale]
          norm_num),
    by simp only [zoomAt, zoomAtRaw, demoState, demoConfig, absoluteMinScale,
        effectiveMaxScale, fitScale, constrainImagePosition]
       norm_num,
    by simp only [zoomAt, zoomAtRaw, demoState, demoConfig, absoluteMinScale,
        effectiveMaxScale, fitScale, constrainImagePosition]
       norm_num,
    by simp only [zoomAt, zoomAtRaw, demoState, demoConfig, absoluteMinScale,
        effectiveMaxScale, fitScale, constrainImagePosition]
       norm_num,
    by simp only [relativeScale, zoomAt, zoomAtRaw, demoState, demoConfig,
        absoluteMinScale, effectiveMaxScale, fitScale, constrainImagePosition]
       norm_num⟩

/-- C10: `startAnimation` tests its `animationTime` argument for truthiness,
so an explicit argument `0` selects the default duration (300 ms when
`smooth`, else 0) instead of 0; in particular a toggle-mode double-click with
`doubleClick.animationTime = 0` animates with the default duration. -/
theorem C10_zero_animation_time_uses_default (st : EngineState)
    (tS tX tY x y : ℚ)
    (hmode : st.config.doubleClickModeToggle = true)
    (hzero : st.config.doubleClickAnimationTime = 0) :
    (startAnimation st tS tX tY (some 0)).animationDuration
        = (if st.config.smooth then 300 else 0) ∧
    (performDoubleClickAction st x y).animationDuration
        = (if st.config.smooth then 300 else 0) := by
  constructor
  · simp [startAnimation, jsOrDefault]
  · simp only [performDoubleClickAction, hmode, if_true]
    split
    · simp [startAnimation, jsOrDefault, hzero]
    · simp [startAnimation, jsOrDefault, hzero]

/-- C10 witness: with the demo configuration altered to
`doubleClick.animationTime = 0` (and `smooth = true`), both a direct
`startAnimation(…, 0)` and the double-click action animate over the default
300 ms. -/
theorem C10_zero_animation_time_uses_default_witness :
    (startAnimation
        { demoState with config := { demoConfig with doubleClickAnimationTime := 0 } }
        1 0 0 (some 0)).animationDuration = 300 ∧
    (performDoubleClickAction
        { demoState with config := { demoConfig with doubleClickAnimationTime := 0 } }
        200 150).animationDuration = 300 := by
  have h := C10_zero_animation_time_uses_default
    { demoState with config := { demoConfig with doubleClickAnimationTime := 0 } }
    1 0 0 200 150 rfl rfl
  simpa [demoConfig] using h

/-- C4 (corrected): on the armed frame boundary the swap callback promotes
`front ← back` and sets `currentLOD ← l` and disarms, in one step that leaves
the transform untouched (so no draw observes a half-installed swap), and it
is a no-op when not armed — but `backTexture` keeps its value instead of
being set to null. -/
theorem C4_swap_commit (st : EngineState) (l : ℤ)
    (h : st.isBackBufferReady = true) :
    (swapBuffersCommit st l).frontTexture = st.backTexture ∧
    (swapBuffersCommit st l).currentLOD = l ∧
    (swapBuffersCommit st l).isBackBufferReady = false ∧
    (swapBuffersCommit st l).backTexture = st.backTexture ∧
    (swapBuffersCommit st l).scale = st.scale ∧
    (swapBuffersCommit st l).translateX = st.translateX ∧
    (swapBuffersCommit st l).translateY = st.translateY ∧
    (∀ st' : EngineState, st'.isBackBufferReady = false →
      swapBuffersCommit st' l = st') := by
  refine ⟨by simp [swapBuffersCommit, h], by simp [swapBuffersCommit, h],
    by simp [swapBuffersCommit, h], by simp [swapBuffersCommit, h],
    by simp [swapBuffersCommit, h], by simp [swapBuffersCommit, h],
    by simp [swapBuffersCommit, h], ?_⟩
  intro st' h'
  simp [swapBuffersCommit, h']

/-- C4 witness: committing an armed swap (back texture id 7, new LOD 3)
installs texture 7 as front with `currentLOD = 3` and disarms. -/
theorem C4_swap_commit_witness :
    (swapBuffersCommit
        { demoState with backTexture := some 7, isBackBufferReady := true }
        3).frontTexture = some 7 ∧
    (swapBuffersCommit
        { demoState with backTexture := some 7, isBackBufferReady := true }
        3).currentLOD = 3 := by
  have h := C4_swap_commit
    { demoState with backTexture := some 7, isBackBufferReady := true } 3 rfl
  exact ⟨h.1, h.2.1⟩

/-- C4 counterexample: the swap does not set `back ← null`.  Committing from
`back = texture 7` leaves `backTexture = some 7`, not `none`, contradicting
the claimed `back ← null`. -/
theorem C4_swap_commit_counterexample :
    ({ demoState with backTexture := some 7, isBackBufferReady := true }
        : EngineState).isBackBufferReady = true ∧
    (swapBuffersCommit
        { demoState with backTexture := some 7, isBackBufferReady := true }
        3).backTexture = some 7 ∧
    (swapBuffersCommit
        { demoState with backTexture := some 7, isBackBufferReady := true }
        3).backTexture ≠ none := by
  refine ⟨rfl, by simp [swapBuffersCommit], by simp [swapBuffersCommit]⟩

/-- C5 (corrected): `emergencyCleanup` retains exactly the cached textures
whose level lies in `{currentLOD − 1, currentLOD, currentLOD + 1}` — not only
the front's level — so the current front LOD's texture is never evicted
(the front LOD stays drawable) and no re-request is needed or performed. -/
theorem C5_emergency_cleanup (st : EngineState) (a : ℤ) :
    (a ∈ (emergencyCleanup st).lodTextures ↔
      a ∈ st.lodTextures ∧
        (a = st.currentLOD - 1 ∨ a = st.currentLOD ∨ a = st.currentLOD + 1)) ∧
    (st.currentLOD ∈ st.lodTextures →
      st.currentLOD ∈ (emergencyCleanup st).lodTextures) ∧
    (emergencyCleanup st).frontTexture = st.frontTexture ∧
    (emergencyCleanup st).currentLOD = st.currentLOD := by
  refine ⟨mem_emergencyCleanup st a, ?_, rfl, rfl⟩
  intro h
  exact (mem_emergencyCleanup st _).mpr ⟨h, Or.inr (Or.inl rfl)⟩

/-- C5 witness: with cache `{0, 1, 2, 5}` and `currentLOD = 1`, level 5 is
evicted, levels 0, 1, 2 are kept, and the front LOD 1 survives. -/
theorem C5_emergency_cleanup_witness :
    ((0 : ℤ) ∈ (emergencyCleanup
        { demoState with lodTextures := [0, 1, 2, 5], currentLOD := 1 }).lodTextures ↔
      (0 : ℤ) ∈ [(0 : ℤ), 1, 2, 5] ∧ ((0 : ℤ) = 0 ∨ (0 : ℤ) = 1 ∨ (0 : ℤ) = 2)) ∧
    (1 : ℤ) ∈ (emergencyCleanup
        { demoState with lodTextures := [0, 1, 2, 5], currentLOD := 1 }).lodTextures := by
  have h := C5_emergency_cleanup
    { demoState with lodTextures := [0, 1, 2, 5], currentLOD := 1 } 0
  refine ⟨by simpa using h.1, h.2.1 (by simp)⟩

lemma firstQualifying_eq_none_iff (r m : ℚ) (l : List ℚ) :
    firstQualifying r m l = none ↔ ∀ ψ ∈ l, ¬ r ≤ ψ * m := by
  induction l with
  | nil => simp [firstQualifying]
  | cons ψ rest ih =>
    by_cases h : r ≤ ψ * m
    · simp [firstQualifying, h]
    · have he : firstQualifying r m (ψ :: rest)
          = (firstQualifying r m rest).map (· + 1) := by
        simp [firstQualifying, h]
      rw [he, Option.map_eq_none', ih]
      constructor
      · intro hall ψ2 hm
        rcases List.mem_cons.mp hm with rfl | hm2
        · exact h
        · exact hall ψ2 hm2
      · intro hall ψ2 hm
        exact hall ψ2 (List.mem_cons_of_mem _ hm)

lemma firstQualifying_spec (r m : ℚ) (l : List ℚ) (j : ℕ)
    (h : firstQualifying r m l = some j) :
    j < l.length ∧ r ≤ l.getD j 0 * m ∧ ∀ t, t < j → ¬ r ≤ l.getD t 0 * m := by
  induction l generalizing j with
  | nil => simp [firstQualifying] at h
  | cons ψ rest ih =>
    by_cases hq : r ≤ ψ * m
    · simp [firstQualifying, hq] at h
      subst h
      exact ⟨by simp, by simpa using hq, fun t ht => absurd ht (by omega)⟩
    · simp [firstQualifying, hq] at h
      obtain ⟨j1, hj1, rfl⟩ := h
      obtain ⟨h1, h2, h3⟩ := ih j1 hj1
      refine ⟨by simpa using Nat.succ_lt_succ h1, by simpa using h2, ?_⟩
      intro t ht
      cases t with
      | zero => simpa using hq
      | succ t1 => simpa using h3 t1 (Nat.lt_of_succ_lt_succ ht)

lemma firstQualifying_mono (r1 r2 m : ℚ) (h12 : r1 ≤ r2) (l : List ℚ) (j2 : ℕ)
    (h : firstQualifying r2 m l = some j2) :
    ∃ j1, firstQualifying r1 m l = some j1 ∧ j1 ≤ j2 := by
  induction l generalizing j2 with
  | nil => simp [firstQualifying] at h
  | cons ψ rest ih =>
    by_cases hq1 : r1 ≤ ψ * m
    · exact ⟨0, by simp [firstQualifying, hq1], Nat.zero_le _⟩
    · have hq2 : ¬ r2 ≤ ψ * m := fun hh => hq1 (le_trans h12 hh)
      simp [firstQualifying, hq2] at h
      obtain ⟨j3, hj3, rfl⟩ := h
      obtain ⟨j1, hj1, hle⟩ := ih j3 hj3
      exact ⟨j1 + 1, by simp [firstQualifying, hq1, hj1], Nat.succ_le_succ hle⟩

/-- C6: `selectOptimalLOD` on a loaded image computes `r = s/F` and the
pressure modifier m (1, 9/10, 7/10, 1/2 for low, medium, high, critical) and
returns the smallest level index with `r ≤ ψₗ·m`, or `L − 1` when no level
qualifies; consequently for a fixed modifier the selected index is monotone
non-decreasing in r. -/
theorem C6_lod_selection (tbl : List ℚ) (st : EngineState) (r1 r2 m : ℚ)
    (himg : st.imageLoaded = true) :
    selectOptimalLOD tbl st
        = selectLODIndex tbl (relativeScale st) (pressureModifier st.pressure) ∧
    ((∃ ψ ∈ tbl, r1 ≤ ψ * m) →
      ∃ j : ℕ, (selectLODIndex tbl r1 m = (j : ℤ) ∧ j < tbl.length) ∧
        r1 ≤ tbl.getD j 0 * m ∧ ∀ t : ℕ, t < j → ¬ r1 ≤ tbl.getD t 0 * m) ∧
    ((∀ ψ ∈ tbl, ¬ r1 ≤ ψ * m) →
      selectLODIndex tbl r1 m = (tbl.length : ℤ) - 1) ∧
    (r1 ≤ r2 → selectLODIndex tbl r1 m ≤ selectLODIndex tbl r2 m) ∧
    pressureModifier MemoryPressure.low = 1 ∧
    pressureModifier MemoryPressure.medium = 9/10 ∧
    pressureModifier MemoryPressure.high = 7/10 ∧
    pressureModifier MemoryPressure.critical = 1/2 := by
  refine ⟨?_, ?_, ?_, ?_, rfl, rfl, rfl, rfl⟩
  · simp [selectOptimalLOD, himg, relativeScale]
  · intro hex
    cases hfq : firstQualifying r1 m tbl with
    | none =>
      rw [firstQualifying_eq_none_iff] at hfq
      obtain ⟨ψ, hmem, hψ⟩ := hex
      exact absurd hψ (hfq ψ hmem)
    | some j =>
      obtain ⟨h1, h2, h3⟩ := firstQualifying_spec r1 m tbl j hfq
      exact ⟨j, ⟨by simp [selectLODIndex, hfq], h1⟩, h2, h3⟩
  · intro hall
    have hn : firstQualifying r1 m tbl = none :=
      (firstQualifying_eq_none_iff r1 m tbl).mpr hall
    simp [selectLODIndex, hn]
  · intro h12
    cases hfq2 : firstQualifying r2 m tbl with
    | some j2 =>
      obtain ⟨j1, hj1, hle⟩ := firstQualifying_mono r1 r2 m h12 tbl j2 hfq2
      simp only [selectLODIndex, hfq2, hj1]
      exact_mod_cast hle
    | none =>
      cases hfq1 : firstQualifying r1 m tbl with
      | some j1 =>
        obtain ⟨h1, -, -⟩ := firstQualifying_spec r1 m tbl j1 hfq1
        simp only [selectLODIndex, hfq1, hfq2]
        omega
      | none => simp [selectLODIndex, hfq1, hfq2]

/-- C6 witness: on the four-level table with ψ = (1/2, 1, 2, 4) and modifier
1, relative scale 4 selects level 3; scaling r up to 5 cannot decrease the
level; and on `demoState` (loaded) the selection agrees with the
`selectLODIndex` core. -/
theorem C6_lod_selection_witness :
    selectLODIndex tbl4 4 1 = 3 ∧
    selectLODIndex tbl4 4 1 ≤ selectLODIndex tbl4 5 1 ∧
    selectOptimalLOD tbl4 demoState
        = selectLODIndex tbl4 (relativeScale demoState)
            (pressureModifier demoState.pressure) := by
  refine ⟨?_, ?_, ?_⟩
  · norm_num [selectLODIndex, firstQualifying, tbl4]
  · exact (C6_lod_selection tbl4 demoState 4 5 1 rfl).2.2.2.1 (by norm_num)
  · exact (C6_lod_selection tbl4 demoState 4 5 1 rfl).1

/-- C1 (corrected): the LOD cache is not single-entry and nothing is deleted
before allocation.  One successful `updateLODIfNeeded` round only ever adds
keys (every previously cached texture survives), and the only bulk eviction,
`emergencyCleanup`, still retains up to three levels
`{currentLOD − 1, currentLOD, currentLOD + 1}`. -/
theorem C1_cache_growth (tbl : List ℚ) (st : EngineState) :
    (∀ a, a ∈ st.lodTextures → a ∈ updateLODCache tbl st) ∧
    (∀ a, a ∈ (emergencyCleanup st).lodTextures →
      a ∈ st.lodTextures ∧
        (a = st.currentLOD - 1 ∨ a = st.currentLOD ∨ a = st.currentLOD + 1)) := by
  constructor
  · intro a ha
    simp only [updateLODCache]
    split
    · exact ha
    · exact mem_preloadAdjacentKeys _ _ _ _ (mem_insertKey _ _ _ ha)
  · intro a ha
    exact (mem_emergencyCleanup st a).mp ha

/-- C1 witness: on `demoState` (cache `{2}`, current LOD 2, optimal LOD 1)
the previously cached texture 2 is still cached after the LOD update. -/
theorem C1_cache_growth_witness :
    (2 : ℤ) ∈ updateLODCache tbl4 demoState :=
  (C1_cache_growth tbl4 demoState).1 2 (by simp [demoState])

/-- C1 counterexample: from a reachable single-texture state (cache `{0}`,
current LOD 0) a zoom to relative scale 4 makes `updateLODIfNeeded` allocate
LOD 3 and preload LOD 2 without deleting anything: the cache afterwards is
`[0, 3, 2]` — three textures, and the old texture 0 was not deleted before
the new allocation — contradicting both halves of the claim. -/
theorem C1_cache_growth_counterexample :
    ({ demoState with currentLOD := 0, lodTextures := [0], scale := 2/5 }
        : EngineState).lodTextures = [0] ∧
    updateLODCache tbl4
        { demoState with currentLOD := 0, lodTextures := [0], scale := 2/5 }
        = [0, 3, 2] ∧
    2 < (updateLODCache tbl4
        { demoState with currentLOD := 0, lodTextures := [0], scale := 2/5 }).length ∧
    (0 : ℤ) ∈ updateLODCache tbl4
        { demoState with currentLOD := 0, lodTextures := [0], scale := 2/5 } := by
  refine ⟨rfl, ?_, ?_, ?_⟩ <;>
    norm_num [updateLODCache, selectOptimalLOD, selectLODIndex, firstQualifying,
      pressureModifier, insertKey, preloadAdjacentKeys, fitScale, tbl4,
      demoState, demoConfig]

/-- C2 (corrected): the scale bound `s ∈ [F·minRel, max(F·maxRel, 1)]` is
enforced by `constrainScaleAndPosition` (whenever the interval is nonempty),
is preserved by every `zoomAt`, and its upper bound is never below 1 — but it
is an invariant only of those operations: `startAnimation` records its target
scale without clamping (and `load` installs `F·initialScale` unclamped, see
the counterexample). -/
theorem C2_scale_bounds (st : EngineState)
    (hle : absoluteMinScale st ≤ effectiveMaxScale st) :
    (absoluteMinScale st ≤ (constrainScaleAndPosition st).scale ∧
      (constrainScaleAndPosition st).scale ≤ effectiveMaxScale st) ∧
    (∀ x y k : ℚ, ∀ animated : Bool,
      absoluteMinScale st ≤ st.scale → st.scale ≤ effectiveMaxScale st →
      absoluteMinScale st ≤ (zoomAt st x y k animated).scale ∧
        (zoomAt st x y k animated).scale ≤ effectiveMaxScale st) ∧
    (1 : ℚ) ≤ effectiveMaxScale st ∧
    (∀ tS tX tY : ℚ, ∀ animTime : Option ℚ,
      (startAnimation st tS tX tY animTime).targetScale = tS) := by
  refine ⟨?_, ?_, le_max_right _ _, fun tS tX tY animTime => rfl⟩
  · simp only [constrainScaleAndPosition]
    rw [constrainImagePosition_scale]
    split_ifs with h1 h2
    · exact ⟨le_refl _, hle⟩
    · exact ⟨hle, le_refl _⟩
    · exact ⟨le_of_not_lt h1, le_of_not_lt h2⟩
  · intro x y k animated hlo hhi
    simp only [zoomAt]
    split_ifs with hrej hanim
    · exact ⟨hlo, hhi⟩
    · rw [startAnimation_scale]
      exact ⟨hlo, hhi⟩
    · rw [constrainImagePosition_scale, zoomAtRaw_scale]
      push_neg at hrej
      exact hrej

/-- C2 witness: in scenario 1 the bounds are `[1/100, 1]`; the constrained
scale stays inside them and the upper bound is at least 1. -/
theorem C2_scale_bounds_witness :
    absoluteMinScale demoState ≤ (constrainScaleAndPosition demoState).scale ∧
    (constrainScaleAndPosition demoState).scale ≤ effectiveMaxScale demoState ∧
    (1 : ℚ) ≤ effectiveMaxScale demoState := by
  have h := C2_scale_bounds demoState
    (by norm_num [absoluteMinScale, effectiveMaxScale, fitScale, demoState, demoConfig])
  exact ⟨h.1.1, h.1.2, h.2.2.1⟩

/-- C2 counterexample: `loadImage` sets `s = F · initialScale` without
clamping.  With `minScale = 1/2` and `initialScale = 1/100` on an 8000×6000
image in an 800×600 viewport, the state immediately after a successful load
is loaded yet has `s = 1/1000 < F·minRel = 1/20`, violating the claimed
invariant at a reachable state. -/
theorem C2_scale_bounds_counterexample :
    (loadImage tbl4 5
        { demoState with
          config := { demoConfig with minScale := 1/2, initialScale := 1/100 },
          imageLoaded := false, lodTextures := [], frontTexture := none }
        "img.jpg" (some (8000, 6000))).2 = true ∧
    (loadImage tbl4 5
        { demoState with
          config := { demoConfig with minScale := 1/2, initialScale := 1/100 },
          imageLoaded := false, lodTextures := [], frontTexture := none }
        "img.jpg" (some (8000, 6000))).1.imageLoaded = true ∧
    (loadImage tbl4 5
        { demoState with
          config := { demoConfig with minScale := 1/2, initialScale := 1/100 },
          imageLoaded := false, lodTextures := [], frontTexture := none }
        "img.jpg" (some (8000, 6000))).1.scale
      < absoluteMinScale (loadImage tbl4 5
        { demoState with
          config := { demoConfig with minScale := 1/2, initialScale := 1/100 },
          imageLoaded := false, lodTextures := [], frontTexture := none }
        "img.jpg" (some (8000, 6000))).1 := by
  refine ⟨rfl, rfl, ?_⟩
  norm_num [loadImage, demoState, demoConfig, fitScale, absoluteMinScale,
    selectOptimalLOD, insertKey]

/-- C8 (code bug): mouse-down, wheel and single-finger touch-start events
that arrive while an animation is in flight do not cancel the animation and
are not processed - each handler returns with the state (including
`isAnimating = true`) completely unchanged, because of the
`if (this.isAnimating …) return` guard at the top of each handler (the
`this.isAnimating = false` "stop any ongoing animation" line below the guard
in `handleMouseDown` is unreachable in that case). -/
theorem C8_input_ignored_while_animating :
    ({ demoState with isAnimating := true } : EngineState).isAnimating = true ∧
    handleMouseDown { demoState with isAnimating := true } 10 10
        = { demoState with isAnimating := true } ∧
    handleWheel { demoState with isAnimating := true } 10 10 1
        = { demoState with isAnimating := true } ∧
    handleTouchStartSingle { demoState with isAnimating := true } 10 10 1000
        = { demoState with isAnimating := true } := by
  refine ⟨rfl, ?_, ?_, ?_⟩
  · simp [handleMouseDown]
  · simp [handleWheel]
  · simp [handleTouchStartSingle]

/-- C9 (corrected): when the decoder promise rejects, `loadImage` leaves the
transform, the image dimensions, the loaded flag, the front texture and the
texture cache unchanged and surfaces the failure — but the retained
original-image URL has already been overwritten with the new `url` before
the decode, and is not restored. -/
theorem C9_decode_failure_state (st : EngineState) (tbl : List ℚ) (tex : ℕ)
    (url : String) :
    (loadImage tbl tex st url none).2 = false ∧
    (loadImage tbl tex st url none).1.scale = st.scale ∧
    (loadImage tbl tex st url none).1.translateX = st.translateX ∧
    (loadImage tbl tex st url none).1.translateY = st.translateY ∧
    (loadImage tbl tex st url none).1.imageWidth = st.imageWidth ∧
    (loadImage tbl tex st url none).1.imageHeight = st.imageHeight ∧
    (loadImage tbl tex st url none).1.imageLoaded = st.imageLoaded ∧
    (loadImage tbl tex st url none).1.frontTexture = st.frontTexture ∧
    (loadImage tbl tex st url none).1.lodTextures = st.lodTextures ∧
    (loadImage tbl tex st url none).1.originalImageSrc = url := by
  simp [loadImage]

/-- C9 counterexample: a failing `load("other.jpg")` from a state whose
retained URL is `"original.jpg"` leaves `originalImageSrc = "other.jpg"`:
the prior URL is not left unchanged, contradicting that part of the claim. -/
theorem C9_decode_failure_counterexample :
    (loadImage tbl4 0 demoState "other.jpg" none).1.originalImageSrc
        = "other.jpg" ∧
    demoState.originalImageSrc = "original.jpg" ∧
    (loadImage tbl4 0 demoState "other.jpg" none).1.originalImageSrc
        ≠ demoState.originalImageSrc ∧
    (loadImage tbl4 0 demoState "other.jpg" none).2 = false := by
  refine ⟨rfl, rfl, ?_, rfl⟩
  simp [loadImage, demoState]

/-- C5 counterexample: the cleanup does not evict every texture except the
front's.  With cache `{0, 1, 2, 5}` and front LOD 1 it keeps `[0, 1, 2]`;
level 0 (≠ 1) survives, contradicting "evicts every cached texture except
the one for the current front LOD". -/
theorem C5_emergency_cleanup_counterexample :
    (emergencyCleanup
        { demoState with lodTextures := [0, 1, 2, 5], currentLOD := 1 }).lodTextures
        = [0, 1, 2] ∧
    (0 : ℤ) ∈ (emergencyCleanup
        { demoState with lodTextures := [0, 1, 2, 5], currentLOD := 1 }).lodTextures ∧
    ({ demoState with lodTextures := [0, 1, 2, 5], currentLOD := 1 }
        : EngineState).currentLOD = 1 ∧
    (0 : ℤ) ≠ 1 := by
  refine ⟨?_, ?_, rfl, by norm_num⟩
  · simp [emergencyCleanup, List.filter]
  · simp [emergencyCleanup, List.filter]

end AfilmoryViewer
